import Mathlib

/-!
Shallow embedding of `cmake-toolchain-rs` (`src/lib.rs`): the
`CMakeToolchain` struct, its constructor `new`, the setters, and the
archiver-discovery algorithm (`find_ar`, `get_var`, `prefix_for_target`,
`find_working_gnu_prefix`).  External collaborators (environment variables,
PATH, filesystem existence, subprocess probing, the Windows registry, the
compiler-detection service of the `cc` crate) are modelled as explicit
parameters collected in `OsEnv` / a `detect` function, so that every
definition is a pure, executable Lean function of the ambient state.
Paths (`PathBuf`) are modelled as `String`.
-/

namespace CMakeToolchainRs

/-- `matchDrop pat s` embeds prefix matching on character lists: it returns
`some rest` when `s = pat ++ rest`, and `none` otherwise. -/
def matchDrop : List Char → List Char → Option (List Char)
  | [], s => some s
  | _ :: _, [] => none
  | p :: ps, c :: cs => if p = c then matchDrop ps cs else none

/-- Helper for `strContains`: does `pat` occur (as a contiguous run) in the
list, starting at this position or later? -/
def containsAux (pat : List Char) : List Char → Bool
  | [] => (matchDrop pat []).isSome
  | c :: cs => (matchDrop pat (c :: cs)).isSome || containsAux pat cs

/-- Embeds Rust `str::contains` (with a string pattern): substring test. -/
def strContains (s pat : String) : Bool :=
  containsAux pat.data s.data

/-- Fuel-indexed helper for `rustReplace`; the fuel bounds the number of
characters still to be scanned, so the recursion is structural. -/
def replaceAux (pat rep : List Char) : Nat → List Char → List Char
  | 0, l => l
  | _ + 1, [] => []
  | fuel + 1, c :: cs =>
    match matchDrop pat (c :: cs) with
    | some rest => rep ++ replaceAux pat rep fuel rest
    | none => c :: replaceAux pat rep fuel cs

/-- Embeds Rust `str::replace`: replace every (leftmost, non-overlapping)
occurrence of `pat` by `rep`.  The source only ever calls it with the
non-empty patterns `"armv7"` and `"-"`; for an empty pattern this model
returns `s` unchanged. -/
def rustReplace (s pat rep : String) : String :=
  match pat.data with
  | [] => s
  | p :: ps => ⟨replaceAux (p :: ps) rep.data s.data.length s.data⟩

/-- Embeds Rust `str::trim_end_matches('-')`: drop all trailing hyphens. -/
def trimEndHyphens (s : String) : String :=
  ⟨(s.data.reverse.dropWhile (fun c => c = '-')).reverse⟩

/-- The ambient OS state the resolver reads.  Each field is one external
collaborator of `src/lib.rs`:
`env` is `std::env::var` (a set variable yields `some value`, including
`some ""` for an empty value); `canExec p` is
`Command::new(p).output().is_ok()`; `fileExists dir name` is
`dir.join(name).exists()`; `exeSuffix` is `std::env::consts::EXE_SUFFIX`;
`pathEntries` is `env::var_os("PATH")` split by `env::split_paths`
(`none` when `PATH` is unset); `registryFind t name` is
`cc::windows_registry::find(t, name).is_some()` (the source only pattern
matches `Some _` / `None`, so a `Bool` captures everything it uses). -/
structure OsEnv where
  env : String → Option String
  canExec : String → Bool
  fileExists : String → String → Bool
  exeSuffix : String
  pathEntries : Option (List String)
  registryFind : String → String → Bool

/-- The configuration of a `cc::Build` compiler-detection request, recording
exactly the knobs `CMakeToolchain::new` sets on it. -/
structure BuildCfg where
  host : String
  target : String
  opt_level : Nat
  cargo_metadata : Bool
  cpp : Bool
  debug : Bool
  warnings : Bool
deriving DecidableEq, Repr

/-- The `CMakeToolchain` struct of `src/lib.rs` (paths as strings). -/
structure CMakeToolchain where
  host : String
  target : String
  sysroot : Option String
  cc : String
  cxx : String
  ar : String
  ranlib : String
deriving DecidableEq, Repr

/-- Embeds `CMakeToolchain::getenv`: `std::env::var(v).ok()`. -/
def getenv (os : OsEnv) (v : String) : Option String :=
  os.env v

/-- Embeds `CMakeToolchain::get_var`: the four-step environment-variable
cascade `{base}_{target}`, `{base}_{target with - replaced by _}`,
`{KIND}_{base}`, `{base}`, first set one wins. -/
def get_var (os : OsEnv) (host target var_base : String) : Option String :=
  let kind := if host = target then "HOST" else "TARGET"
  let target_u := rustReplace target "-" "_"
  (((getenv os (var_base ++ "_" ++ target)).orElse
      (fun _ => getenv os (var_base ++ "_" ++ target_u))).orElse
    (fun _ => getenv os (kind ++ "_" ++ var_base))).orElse
    (fun _ => getenv os var_base)

/-- Embeds `CMakeToolchain::find_working_gnu_prefix`: walk PATH entries in
order, inside each entry try the candidate prefixes in order for an existing
`{prefix}-gcc{EXE_SUFFIX}`; fall back to the first candidate. -/
def find_working_gnu_prefix (os : OsEnv) (prefixes : List String) :
    Option String :=
  let suffix := "-gcc"
  let extension := os.exeSuffix
  ((os.pathEntries.bind fun entries =>
      entries.findSome? fun path_entry =>
        prefixes.findSome? fun pfx =>
          let target_compiler := pfx ++ suffix ++ extension
          if os.fileExists path_entry target_compiler then some pfx
          else none).orElse
    (fun _ => prefixes.head?))

/-- The static target-triple-to-prefix table of
`CMakeToolchain::prefix_for_target` (the `match &target[..]` expression). -/
def prefixTable (os : OsEnv) (target : String) : Option String :=
  match target with
  | "aarch64-pc-windows-gnu" => some "aarch64-w64-mingw32"
  | "aarch64-uwp-windows-gnu" => some "aarch64-w64-mingw32"
  | "aarch64-unknown-linux-gnu" => some "aarch64-linux-gnu"
  | "aarch64-unknown-linux-musl" => some "aarch64-linux-musl"
  | "aarch64-unknown-netbsd" => some "aarch64--netbsd"
  | "arm-unknown-linux-gnueabi" => some "arm-linux-gnueabi"
  | "armv4t-unknown-linux-gnueabi" => some "arm-linux-gnueabi"
  | "armv5te-unknown-linux-gnueabi" => some "arm-linux-gnueabi"
  | "armv5te-unknown-linux-musleabi" => some "arm-linux-gnueabi"
  | "arm-frc-linux-gnueabi" => some "arm-frc-linux-gnueabi"
  | "arm-unknown-linux-gnueabihf" => some "arm-linux-gnueabihf"
  | "arm-unknown-linux-musleabi" => some "arm-linux-musleabi"
  | "arm-unknown-linux-musleabihf" => some "arm-linux-musleabihf"
  | "arm-unknown-netbsd-eabi" => some "arm--netbsdelf-eabi"
  | "armv6-unknown-netbsd-eabihf" => some "armv6--netbsdelf-eabihf"
  | "armv7-unknown-linux-gnueabi" => some "arm-linux-gnueabi"
  | "armv7-unknown-linux-gnueabihf" => some "arm-linux-gnueabihf"
  | "armv7-unknown-linux-musleabihf" => some "arm-linux-musleabihf"
  | "armv7neon-unknown-linux-gnueabihf" => some "arm-linux-gnueabihf"
  | "armv7neon-unknown-linux-musleabihf" => some "arm-linux-musleabihf"
  | "thumbv7-unknown-linux-gnueabihf" => some "arm-linux-gnueabihf"
  | "thumbv7-unknown-linux-musleabihf" => some "arm-linux-musleabihf"
  | "thumbv7neon-unknown-linux-gnueabihf" => some "arm-linux-gnueabihf"
  | "thumbv7neon-unknown-linux-musleabihf" => some "arm-linux-musleabihf"
  | "armv7-unknown-netbsd-eabihf" => some "armv7--netbsdelf-eabihf"
  | "hexagon-unknown-linux-musl" => some "hexagon-linux-musl"
  | "i586-unknown-linux-musl" => some "musl"
  | "i686-pc-windows-gnu" => some "i686-w64-mingw32"
  | "i686-uwp-windows-gnu" => some "i686-w64-mingw32"
  | "i686-unknown-linux-gnu" =>
      find_working_gnu_prefix os ["i686-linux-gnu", "x86_64-linux-gnu"]
  | "i686-unknown-linux-musl" => some "musl"
  | "i686-unknown-netbsd" => some "i486--netbsdelf"
  | "mips-unknown-linux-gnu" => some "mips-linux-gnu"
  | "mips-unknown-linux-musl" => some "mips-linux-musl"
  | "mipsel-unknown-linux-gnu" => some "mipsel-linux-gnu"
  | "mipsel-unknown-linux-musl" => some "mipsel-linux-musl"
  | "mips64-unknown-linux-gnuabi64" => some "mips64-linux-gnuabi64"
  | "mips64el-unknown-linux-gnuabi64" => some "mips64el-linux-gnuabi64"
  | "mipsisa32r6-unknown-linux-gnu" => some "mipsisa32r6-linux-gnu"
  | "mipsisa32r6el-unknown-linux-gnu" => some "mipsisa32r6el-linux-gnu"
  | "mipsisa64r6-unknown-linux-gnuabi64" => some "mipsisa64r6-linux-gnuabi64"
  | "mipsisa64r6el-unknown-linux-gnuabi64" =>
      some "mipsisa64r6el-linux-gnuabi64"
  | "powerpc-unknown-linux-gnu" => some "powerpc-linux-gnu"
  | "powerpc-unknown-linux-gnuspe" => some "powerpc-linux-gnuspe"
  | "powerpc-unknown-netbsd" => some "powerpc--netbsd"
  | "powerpc64-unknown-linux-gnu" => some "powerpc-linux-gnu"
  | "powerpc64le-unknown-linux-gnu" => some "powerpc64le-linux-gnu"
  | "riscv32i-unknown-none-elf" =>
      find_working_gnu_prefix os
        ["riscv32-unknown-elf", "riscv64-unknown-elf", "riscv-none-embed"]
  | "riscv32imac-unknown-none-elf" =>
      find_working_gnu_prefix os
        ["riscv32-unknown-elf", "riscv64-unknown-elf", "riscv-none-embed"]
  | "riscv32imc-unknown-none-elf" =>
      find_working_gnu_prefix os
        ["riscv32-unknown-elf", "riscv64-unknown-elf", "riscv-none-embed"]
  | "riscv64gc-unknown-none-elf" =>
      find_working_gnu_prefix os
        ["riscv64-unknown-elf", "riscv32-unknown-elf", "riscv-none-embed"]
  | "riscv64imac-unknown-none-elf" =>
      find_working_gnu_prefix os
        ["riscv64-unknown-elf", "riscv32-unknown-elf", "riscv-none-embed"]
  | "riscv64gc-unknown-linux-gnu" => some "riscv64-linux-gnu"
  | "riscv32gc-unknown-linux-gnu" => some "riscv32-linux-gnu"
  | "riscv64gc-unknown-linux-musl" => some "riscv64-linux-musl"
  | "riscv32gc-unknown-linux-musl" => some "riscv32-linux-musl"
  | "s390x-unknown-linux-gnu" => some "s390x-linux-gnu"
  | "sparc-unknown-linux-gnu" => some "sparc-linux-gnu"
  | "sparc64-unknown-linux-gnu" => some "sparc64-linux-gnu"
  | "sparc64-unknown-netbsd" => some "sparc64--netbsd"
  | "sparcv9-sun-solaris" => some "sparcv9-sun-solaris"
  | "armv7a-none-eabi" => some "arm-none-eabi"
  | "armv7a-none-eabihf" => some "arm-none-eabi"
  | "armebv7r-none-eabi" => some "arm-none-eabi"
  | "armebv7r-none-eabihf" => some "arm-none-eabi"
  | "armv7r-none-eabi" => some "arm-none-eabi"
  | "armv7r-none-eabihf" => some "arm-none-eabi"
  | "thumbv6m-none-eabi" => some "arm-none-eabi"
  | "thumbv7em-none-eabi" => some "arm-none-eabi"
  | "thumbv7em-none-eabihf" => some "arm-none-eabi"
  | "thumbv7m-none-eabi" => some "arm-none-eabi"
  | "thumbv8m.base-none-eabi" => some "arm-none-eabi"
  | "thumbv8m.main-none-eabi" => some "arm-none-eabi"
  | "thumbv8m.main-none-eabihf" => some "arm-none-eabi"
  | "x86_64-pc-windows-gnu" => some "x86_64-w64-mingw32"
  | "x86_64-uwp-windows-gnu" => some "x86_64-w64-mingw32"
  | "x86_64-rumprun-netbsd" => some "x86_64-rumprun-netbsd"
  | "x86_64-unknown-linux-gnu" =>
      find_working_gnu_prefix os ["x86_64-linux-gnu"]
  | "x86_64-unknown-linux-musl" => some "musl"
  | "x86_64-unknown-netbsd" => some "x86_64--netbsd"
  | _ => none

/-- Embeds `CMakeToolchain::prefix_for_target`: `CROSS_COMPILE` (with
trailing hyphens trimmed) unconditionally wins; otherwise the static table
(`Option::or` in the source evaluates the table eagerly, but the result is
the same first-`some`). -/
def prefix_for_target (os : OsEnv) (target : String) : Option String :=
  let cc_env := getenv os "CROSS_COMPILE"
  let cross_compile := cc_env.map (fun s => trimEndHyphens s)
  match cross_compile with
  | some p => some p
  | none => prefixTable os target

/-- Embeds `CMakeToolchain::find_ar`: the archiver-discovery cascade. -/
def find_ar (os : OsEnv) (host target : String) : String :=
  match get_var os host target "AR" with
  | some p => p
  | none =>
    let default_ar := "ar"
    if strContains target "android" then
      rustReplace target "armv7" "arm" ++ "-ar"
    else if strContains target "emscripten" then
      "emar"
    else if strContains target "msvc" then
      if os.registryFind target "lib.exe" then "lib.exe" else "lib.exe"
    else if strContains target "illumos" then
      "gar"
    else if host ≠ target then
      match prefix_for_target os target with
      | some p =>
        let target_ar := p ++ "-ar"
        if os.canExec target_ar then target_ar else default_ar
      | none => default_ar
    else
      default_ar

/-- Embeds `CMakeToolchain::new`.  `host` stands for
`rustc_version::version_meta().host` and `detect` for
`cc::Build::get_compiler().path()` on a given configuration.  Note the
source builds `cxx_cfg = c_cfg.clone(); cxx_cfg.cpp(true)` but then calls
`c_cfg.get_compiler()` (not `cxx_cfg.get_compiler()`) for `cxx_compiler`;
this definition reproduces that line faithfully. -/
def CMakeToolchain.new (os : OsEnv) (detect : BuildCfg → String)
    (host target : String) : CMakeToolchain :=
  let c_cfg : BuildCfg :=
    { host := host, target := target, opt_level := 0,
      cargo_metadata := false, cpp := false, debug := false,
      warnings := false }
  let c_compiler := detect c_cfg
  let cxx_cfg : BuildCfg := { c_cfg with cpp := true }
  let cxx_compiler := detect c_cfg
  let toolchain : CMakeToolchain :=
    { host := host, target := target, sysroot := none,
      cc := c_compiler, cxx := cxx_compiler,
      ar := "ar", ranlib := "ranlib" }
  let _unused := cxx_cfg
  { toolchain with ar := find_ar os toolchain.host toolchain.target }

/-- Embeds the setter `CMakeToolchain::sysroot`. -/
def CMakeToolchain.set_sysroot (t : CMakeToolchain) (sysroot : String) :
    CMakeToolchain :=
  { t with sysroot := some sysroot }

/-- Embeds the setter `CMakeToolchain::cc`. -/
def CMakeToolchain.set_cc (t : CMakeToolchain) (cc : String) :
    CMakeToolchain :=
  { t with cc := cc }

/-- Embeds the setter `CMakeToolchain::cxx`. -/
def CMakeToolchain.set_cxx (t : CMakeToolchain) (cxx : String) :
    CMakeToolchain :=
  { t with cxx := cxx }

/-- Embeds the setter `CMakeToolchain::ar`. -/
def CMakeToolchain.set_ar (t : CMakeToolchain) (ar : String) :
    CMakeToolchain :=
  { t with ar := ar }

/-- Embeds the setter `CMakeToolchain::ranlib`. -/
def CMakeToolchain.set_ranlib (t : CMakeToolchain) (ranlib : String) :
    CMakeToolchain :=
  { t with ranlib := ranlib }

/-- Spec-side reading of the working-prefix search (§4.5 of the spec,
stated from its words, to be compared with the source-side
`find_working_gnu_prefix`): find the first PATH directory in which some
candidate matches (`fileOk d p` = the file `{p}-gcc{suffix}` exists in
`d`), then return the first candidate, in the given order, matching in
that directory. -/
def specFirstWorking (fileOk : String → String → Bool) (l : List String) :
    List String → Option String
  | [] => none
  | d :: ds =>
    if l.any (fun p => fileOk d p) then l.find? (fun p => fileOk d p)
    else specFirstWorking fileOk l ds

/-- A fully empty ambient state: no environment variables, no executables,
no files, empty executable suffix, `PATH` unset, empty registry. -/
def osEmpty : OsEnv :=
  { env := fun _ => none, canExec := fun _ => false,
    fileExists := fun _ _ => false, exeSuffix := "",
    pathEntries := none, registryFind := fun _ _ => false }

/-- A compiler-detection function that distinguishes the C and C++ modes:
it returns `"g++"` when the configuration has `cpp = true` and `"gcc"`
otherwise. -/
def detectByMode : BuildCfg → String :=
  fun cfg => if cfg.cpp then "g++" else "gcc"

/-- Ambient state in which the variable `AR` is set to the empty string
and nothing else is set. -/
def osEmptyAR : OsEnv :=
  { osEmpty with env := fun v => if v = "AR" then some "" else none }

/-- Ambient state in which `AR_armv7-linux-androideabi` is set to
`/custom/ar` and nothing else is set. -/
def osCustomAR : OsEnv :=
  { osEmpty with
    env := fun v =>
      if v = "AR_armv7-linux-androideabi" then some "/custom/ar"
      else none }

/-- Ambient state for the cascade-priority example of the spec:
`AR_x86_64-unknown-linux-gnu=X`, `AR_x86_64_unknown_linux_gnu=Y`,
`AR=Z`; nothing else is set. -/
def osXYZ : OsEnv :=
  { osEmpty with
    env := fun v =>
      if v = "AR_x86_64-unknown-linux-gnu" then some "X"
      else if v = "AR_x86_64_unknown_linux_gnu" then some "Y"
      else if v = "AR" then some "Z"
      else none }

/-- Ambient state in which `CROSS_COMPILE` is set to
`arm-linux-gnueabi-` and nothing else is set. -/
def osCross : OsEnv :=
  { osEmpty with
    env := fun v =>
      if v = "CROSS_COMPILE" then some "arm-linux-gnueabi-"
      else none }

/-- Ambient state whose registry lookup always succeeds (used to show the
msvc result does not depend on the registry outcome). -/
def osRegistryHit : OsEnv :=
  { osEmpty with registryFind := fun _ _ => true }

/-- Appending the three-character suffix `-ar` never yields the empty
string. -/
theorem append_ar_ne_empty (s : String) : s ++ "-ar" ≠ "" := by
  intro hcontra
  have hdata := congrArg String.data hcontra
  rw [String.data_append] at hdata
  have h2 : ("-ar" : String).data = [] := (List.append_eq_nil.mp hdata).2
  exact absurd h2 (by decide)

/-- C1: the claim says `new` obtains `cxx` from a detection request with
C++ mode on, so `cc` and `cxx` differ whenever C-mode and C++-mode
detection return different paths.  The code instead calls
`c_cfg.get_compiler()` (C mode) for `cxx_compiler`, leaving the
`cpp(true)` configuration `cxx_cfg` unused: with a detection function
returning `gcc` in C mode and `g++` in C++ mode, the constructed
toolchain has `cxx = "gcc"` and `cc = cxx`. -/
theorem new_cxx_uses_c_mode_detection :
    detectByMode { host := "h", target := "t", opt_level := 0,
                   cargo_metadata := false, cpp := true, debug := false,
                   warnings := false } = "g++" ∧
    (CMakeToolchain.new osEmpty detectByMode "h" "t").cxx = "gcc" ∧
    (CMakeToolchain.new osEmpty detectByMode "h" "t").cc =
      (CMakeToolchain.new osEmpty detectByMode "h" "t").cxx := by
  exact ⟨rfl, rfl, rfl⟩

/-- C3: the `AR` environment-variable cascade is evaluated first in
`find_ar` and wins over every other rule: for every ambient state, host
and target (including targets hitting the android / emscripten / msvc /
illumos special cases), if the cascade yields a value, `find_ar` returns
that value verbatim. -/
theorem find_ar_override_wins (os : OsEnv) (host target v : String)
    (h : get_var os host target "AR" = some v) :
    find_ar os host target = v := by
  unfold find_ar
  rw [h]

/-- Witness for C3: with `AR_armv7-linux-androideabi=/custom/ar` set and
the android target `armv7-linux-androideabi` (which would otherwise hit
the android special case), `find_ar` returns `/custom/ar`. -/
theorem find_ar_override_wins_witness :
    strContains "armv7-linux-androideabi" "android" = true ∧
    get_var osCustomAR "h" "armv7-linux-androideabi" "AR" =
      some "/custom/ar" ∧
    find_ar osCustomAR "h" "armv7-linux-androideabi" = "/custom/ar" :=
  ⟨by decide, by decide,
    find_ar_override_wins osCustomAR "h" "armv7-linux-androideabi"
      "/custom/ar" (by decide)⟩

/-- C9: for every target containing `android`, when the `AR` cascade
yields nothing, `find_ar` returns the target with `armv7` replaced by
`arm`, followed by `-ar` — for every ambient state (hence independently
of all other environment variables, PATH, filesystem and registry). -/
theorem find_ar_android (os : OsEnv) (host target : String)
    (hAR : get_var os host target "AR" = none)
    (hand : strContains target "android" = true) :
    find_ar os host target = rustReplace target "armv7" "arm" ++ "-ar" := by
  unfold find_ar
  rw [hAR]
  simp [hand]

/-- Witness for C9: with nothing set in the environment, the target
`armv7-linux-androideabi` resolves to `arm-linux-androideabi-ar`. -/
theorem find_ar_android_witness :
    get_var osEmpty "h" "armv7-linux-androideabi" "AR" = none ∧
    strContains "armv7-linux-androideabi" "android" = true ∧
    find_ar osEmpty "h" "armv7-linux-androideabi" =
      rustReplace "armv7-linux-androideabi" "armv7" "arm" ++ "-ar" ∧
    rustReplace "armv7-linux-androideabi" "armv7" "arm" ++ "-ar" =
      "arm-linux-androideabi-ar" :=
  ⟨by decide, by decide,
    find_ar_android osEmpty "h" "armv7-linux-androideabi" (by decide)
      (by decide), by decide⟩

/-- C10: each setter (`sysroot`, `cc`, `cxx`, `ar`, `ranlib`) sets its own
field to the given value and leaves `host`, `target` and every other
field unchanged, for every toolchain value and every argument; in
particular no setter ever changes `host` or `target`. -/
theorem setters_frame (t : CMakeToolchain) (v : String) :
    ((t.set_sysroot v).sysroot = some v ∧
      (t.set_sysroot v).host = t.host ∧ (t.set_sysroot v).target = t.target ∧
      (t.set_sysroot v).cc = t.cc ∧ (t.set_sysroot v).cxx = t.cxx ∧
      (t.set_sysroot v).ar = t.ar ∧ (t.set_sysroot v).ranlib = t.ranlib) ∧
    ((t.set_cc v).cc = v ∧
      (t.set_cc v).host = t.host ∧ (t.set_cc v).target = t.target ∧
      (t.set_cc v).sysroot = t.sysroot ∧ (t.set_cc v).cxx = t.cxx ∧
      (t.set_cc v).ar = t.ar ∧ (t.set_cc v).ranlib = t.ranlib) ∧
    ((t.set_cxx v).cxx = v ∧
      (t.set_cxx v).host = t.host ∧ (t.set_cxx v).target = t.target ∧
      (t.set_cxx v).sysroot = t.sysroot ∧ (t.set_cxx v).cc = t.cc ∧
      (t.set_cxx v).ar = t.ar ∧ (t.set_cxx v).ranlib = t.ranlib) ∧
    ((t.set_ar v).ar = v ∧
      (t.set_ar v).host = t.host ∧ (t.set_ar v).target = t.target ∧
      (t.set_ar v).sysroot = t.sysroot ∧ (t.set_ar v).cc = t.cc ∧
      (t.set_ar v).cxx = t.cxx ∧ (t.set_ar v).ranlib = t.ranlib) ∧
    ((t.set_ranlib v).ranlib = v ∧
      (t.set_ranlib v).host = t.host ∧ (t.set_ranlib v).target = t.target ∧
      (t.set_ranlib v).sysroot = t.sysroot ∧ (t.set_ranlib v).cc = t.cc ∧
      (t.set_ranlib v).cxx = t.cxx ∧ (t.set_ranlib v).ar = t.ar) := by
  exact ⟨⟨rfl, rfl, rfl, rfl, rfl, rfl, rfl⟩,
    ⟨rfl, rfl, rfl, rfl, rfl, rfl, rfl⟩,
    ⟨rfl, rfl, rfl, rfl, rfl, rfl, rfl⟩,
    ⟨rfl, rfl, rfl, rfl, rfl, rfl, rfl⟩,
    ⟨rfl, rfl, rfl, rfl, rfl, rfl, rfl⟩⟩

/-- Counterexample for C2: with the environment variable `AR` set to the
empty string (one of the `AR`-cascade variables), the cascade yields the
empty value, and both `find_ar` and the `ar` field produced by
construction are the empty string — not a non-empty value. -/
theorem ar_empty_counterexample :
    getenv osEmptyAR "AR" = some "" ∧
    get_var osEmptyAR "h" "h" "AR" = some "" ∧
    find_ar osEmptyAR "h" "h" = "" ∧
    (CMakeToolchain.new osEmptyAR (fun _ => "cc") "h" "h").ar = "" :=
  ⟨by decide, by decide, by decide, by decide⟩

/-- C2 (amended): when no `AR`-cascade variable is set, the archiver
value produced by `find_ar` — and hence the `ar` field produced by
construction — is non-empty, falling back to the literal `ar` when
nothing better is found; a set cascade variable is returned verbatim, so
the result is empty exactly when that variable's value is empty. -/
theorem find_ar_ne_empty_of_no_override (os : OsEnv)
    (detect : BuildCfg → String) (host target : String)
    (h : get_var os host target "AR" = none) :
    find_ar os host target ≠ "" ∧
    (CMakeToolchain.new os detect host target).ar ≠ "" := by
  have hmain : find_ar os host target ≠ "" := by
    unfold find_ar
    rw [h]
    by_cases h1 : strContains target "android" = true
    · simp only [h1, if_true]
      exact append_ar_ne_empty _
    · by_cases h2 : strContains target "emscripten" = true
      · simp [h1, h2]
      · by_cases h3 : strContains target "msvc" = true
        · by_cases hr : os.registryFind target "lib.exe" = true <;>
            simp [h1, h2, h3, hr]
        · by_cases h4 : strContains target "illumos" = true
          · simp [h1, h2, h3, h4]
          · by_cases h5 : host = target
            · simp [h1, h2, h3, h4, h5]
            · cases hp : prefix_for_target os target with
              | none => simp [h1, h2, h3, h4, h5, hp]
              | some p =>
                by_cases hc : os.canExec (p ++ "-ar") = true
                · simp only [h1, h2, h3, h4, h5, hp, if_false,
                    Bool.false_eq_true, ite_false, ite_true, hc, ne_eq]
                  simp [h1, h2, h3, h4, h5, hp, hc]
                  exact append_ar_ne_empty _
                · simp [h1, h2, h3, h4, h5, hp, hc]
  exact ⟨hmain, hmain⟩

/-- Witness for C2 (amended): with nothing set in the environment and
target `t`, the cascade yields nothing and both values are non-empty. -/
theorem find_ar_ne_empty_witness :
    get_var osEmpty "h" "t" "AR" = none ∧
    (find_ar osEmpty "h" "t" ≠ "" ∧
      (CMakeToolchain.new osEmpty (fun _ => "cc") "h" "t").ar ≠ "") :=
  ⟨by decide,
    find_ar_ne_empty_of_no_override osEmpty (fun _ => "cc") "h" "t"
      (by decide)⟩

/-- C5: in the cross-compilation case (no `AR`-cascade hit, target not
containing `android`, `emscripten`, `msvc` or `illumos`, and host
different from target), `find_ar` returns `{p}-ar` when prefix resolution
yields `p` and invoking that candidate succeeds, `ar` when the invocation
fails, and `ar` when prefix resolution yields nothing. -/
theorem find_ar_cross (os : OsEnv) (host target : String)
    (hAR : get_var os host target "AR" = none)
    (hand : strContains target "android" = false)
    (hems : strContains target "emscripten" = false)
    (hmsvc : strContains target "msvc" = false)
    (hill : strContains target "illumos" = false)
    (hcross : host ≠ target) :
    find_ar os host target =
      match prefix_for_target os target with
      | some p => if os.canExec (p ++ "-ar") then p ++ "-ar" else "ar"
      | none => "ar" := by
  unfold find_ar
  rw [hAR]
  simp [hand, hems, hmsvc, hill, hcross]

/-- Witness for C5: with nothing set in the environment, host `h` and
target `aarch64-unknown-linux-gnu` (table prefix `aarch64-linux-gnu`, not
invocable in the empty state), the cross-compilation equation holds; it
evaluates to the fallback `ar`. -/
theorem find_ar_cross_witness :
    get_var osEmpty "h" "aarch64-unknown-linux-gnu" "AR" = none ∧
    strContains "aarch64-unknown-linux-gnu" "android" = false ∧
    strContains "aarch64-unknown-linux-gnu" "emscripten" = false ∧
    strContains "aarch64-unknown-linux-gnu" "msvc" = false ∧
    strContains "aarch64-unknown-linux-gnu" "illumos" = false ∧
    ("h" : String) ≠ "aarch64-unknown-linux-gnu" ∧
    (find_ar osEmpty "h" "aarch64-unknown-linux-gnu" =
      match prefix_for_target osEmpty "aarch64-unknown-linux-gnu" with
      | some p => if osEmpty.canExec (p ++ "-ar") then p ++ "-ar" else "ar"
      | none => "ar") ∧
    find_ar osEmpty "h" "aarch64-unknown-linux-gnu" = "ar" :=
  ⟨by decide, by decide, by decide, by decide, by decide, by decide,
    find_ar_cross osEmpty "h" "aarch64-unknown-linux-gnu" (by decide)
      (by decide) (by decide) (by decide) (by decide) (by decide),
    by decide⟩

/-- Counterexample for C6: the android branch of `find_ar` is tested
before the msvc branch, so a target containing both `android` and `msvc`
(here the string `android-msvc`, with no `AR`-cascade variable set)
resolves to `android-msvc-ar`, not to `lib.exe` — refuting the claim for
all targets containing `msvc`. -/
theorem find_ar_msvc_counterexample :
    strContains "android-msvc" "msvc" = true ∧
    get_var osEmpty "h" "android-msvc" "AR" = none ∧
    find_ar osEmpty "h" "android-msvc" ≠ "lib.exe" ∧
    find_ar osEmpty "h" "android-msvc" = "android-msvc-ar" :=
  ⟨by decide, by decide, by decide, by decide⟩

/-- C6 (amended): for every target containing `msvc` but not `android`
and not `emscripten`, with no `AR`-cascade hit, `find_ar` returns
`lib.exe` for every ambient state — in particular regardless of whether
the registry lookup succeeds or fails, since both branches yield the same
literal. -/
theorem find_ar_msvc (os : OsEnv) (host target : String)
    (hAR : get_var os host target "AR" = none)
    (hand : strContains target "android" = false)
    (hems : strContains target "emscripten" = false)
    (hmsvc : strContains target "msvc" = true) :
    find_ar os host target = "lib.exe" := by
  unfold find_ar
  rw [hAR]
  simp [hand, hems, hmsvc]

/-- Witness for C6 (amended): target `x86_64-pc-windows-msvc`, in an
ambient state whose registry lookup succeeds, resolves to `lib.exe` (the
all-empty state, with a failing lookup, gives the same by the theorem's
generality). -/
theorem find_ar_msvc_witness :
    get_var osRegistryHit "h" "x86_64-pc-windows-msvc" "AR" = none ∧
    strContains "x86_64-pc-windows-msvc" "android" = false ∧
    strContains "x86_64-pc-windows-msvc" "emscripten" = false ∧
    strContains "x86_64-pc-windows-msvc" "msvc" = true ∧
    osRegistryHit.registryFind "x86_64-pc-windows-msvc" "lib.exe" = true ∧
    find_ar osRegistryHit "h" "x86_64-pc-windows-msvc" = "lib.exe" :=
  ⟨by decide, by decide, by decide, by decide, by decide,
    find_ar_msvc osRegistryHit "h" "x86_64-pc-windows-msvc" (by decide)
      (by decide) (by decide) (by decide)⟩

/-- C7: if `CROSS_COMPILE` is set, `prefix_for_target` returns its value
with trailing hyphens trimmed, for every target, unconditionally
overriding the static table. -/
theorem prefix_for_target_cross_compile (os : OsEnv) (target s : String)
    (h : getenv os "CROSS_COMPILE" = some s) :
    prefix_for_target os target = some (trimEndHyphens s) := by
  unfold prefix_for_target
  rw [h]
  rfl

/-- Witness for C7: `CROSS_COMPILE=arm-linux-gnueabi-` yields the prefix
`arm-linux-gnueabi` (trailing hyphen stripped) even for the tabled target
`aarch64-unknown-linux-gnu`, whose table entry is different. -/
theorem prefix_for_target_cross_compile_witness :
    getenv osCross "CROSS_COMPILE" = some "arm-linux-gnueabi-" ∧
    prefix_for_target osCross "aarch64-unknown-linux-gnu" =
      some (trimEndHyphens "arm-linux-gnueabi-") ∧
    trimEndHyphens "arm-linux-gnueabi-" = "arm-linux-gnueabi" ∧
    prefixTable osCross "aarch64-unknown-linux-gnu" =
      some "aarch64-linux-gnu" :=
  ⟨by decide,
    prefix_for_target_cross_compile osCross "aarch64-unknown-linux-gnu"
      "arm-linux-gnueabi-" (by decide),
    by decide, by decide⟩

/-- C4: the variable cascade probes exactly the four names
`{base}_{target}`, `{base}_{target with hyphens replaced by
underscores}`, `{KIND}_{base}` (`KIND` = `HOST` iff host equals target,
else `TARGET`) and `{base}`, in that order, returning the first set one
(`none` when none are set); and on the spec's example — with
`AR_x86_64-unknown-linux-gnu=X`, `AR_x86_64_unknown_linux_gnu=Y` and
`AR=Z` all set — it returns `X` for that target. -/
theorem get_var_probes_four_names :
    (∀ (os : OsEnv) (host target base : String),
      get_var os host target base =
        match getenv os (base ++ "_" ++ target) with
        | some v => some v
        | none =>
          match getenv os (base ++ "_" ++ rustReplace target "-" "_") with
          | some v => some v
          | none =>
            match
              getenv os
                ((if host = target then "HOST" else "TARGET") ++ "_" ++
                  base) with
            | some v => some v
            | none => getenv os base) ∧
    get_var osXYZ "x86_64-unknown-linux-gnu" "x86_64-unknown-linux-gnu"
      "AR" = some "X" := by
  constructor
  · intro os host target base
    simp only [get_var]
    cases h1 : getenv os (base ++ "_" ++ target) <;>
      cases h2 : getenv os (base ++ "_" ++ rustReplace target "-" "_") <;>
        cases h3 :
            getenv os
              ((if host = target then "HOST" else "TARGET") ++ "_" ++
                base) <;>
          simp [Option.orElse, h1, h2, h3]
  · decide

/-- `List.findSome?` of a guarded identity function is `List.find?` of
the guard. -/
theorem findSome?_guard (q : String → Bool) (l : List String) :
    (l.findSome? fun p => if q p then some p else none) = l.find? q := by
  induction l with
  | nil => rfl
  | cons a l ih =>
    by_cases h : q a = true <;>
      simp [List.findSome?_cons, List.find?_cons, h, ih]

/-- The nested PATH scan of `find_working_gnu_prefix` (first directory,
then first candidate in it) computes the spec-side `specFirstWorking`. -/
theorem findSome?_find?_eq_specFirstWorking
    (fileOk : String → String → Bool) (l : List String)
    (entries : List String) :
    (entries.findSome? fun d => l.find? fun p => fileOk d p) =
      specFirstWorking fileOk l entries := by
  induction entries with
  | nil => rfl
  | cons d ds ih =>
    by_cases h : l.any (fun p => fileOk d p) = true
    · have hsome : (l.find? fun p => fileOk d p).isSome = true := by
        rw [List.find?_isSome]
        exact List.any_eq_true.mp h
      obtain ⟨p, hp⟩ := Option.isSome_iff_exists.mp hsome
      simp [List.findSome?_cons, specFirstWorking, h, hp]
    · have hf : (l.find? fun p => fileOk d p) = none := by
        rw [List.find?_eq_none]
        intro x hx hqx
        exact h (List.any_eq_true.mpr ⟨x, hx, hqx⟩)
      simp [List.findSome?_cons, specFirstWorking, h, hf, ih]

/-- C8: for every non-empty candidate list, the working-prefix search
never fails: it returns the first candidate (in the given order) whose
`{candidate}-gcc{executable suffix}` exists in the first PATH directory
where any candidate matches, and when no directory yields a match — or
`PATH` is unset — it returns the first candidate unmodified. -/
theorem find_working_gnu_prefix_spec (os : OsEnv) (x : String)
    (xs : List String) :
    find_working_gnu_prefix os (x :: xs) ≠ none ∧
    find_working_gnu_prefix os (x :: xs) =
      some
        ((match os.pathEntries with
          | none => none
          | some entries =>
            specFirstWorking
              (fun d p => os.fileExists d (p ++ "-gcc" ++ os.exeSuffix))
              (x :: xs) entries).getD x) := by
  have key :
      find_working_gnu_prefix os (x :: xs) =
        some
          ((match os.pathEntries with
            | none => none
            | some entries =>
              specFirstWorking
                (fun d p => os.fileExists d (p ++ "-gcc" ++ os.exeSuffix))
                (x :: xs) entries).getD x) := by
    unfold find_working_gnu_prefix
    cases hp : os.pathEntries with
    | none => simp [Option.orElse]
    | some entries =>
      simp only [Option.bind, findSome?_guard,
        findSome?_find?_eq_specFirstWorking]
      cases hs :
          specFirstWorking
            (fun d p => os.fileExists d (p ++ "-gcc" ++ os.exeSuffix))
            (x :: xs) entries with
      | none => simp [Option.orElse, hs]
      | some p => simp [Option.orElse, hs]
  exact ⟨by rw [key]; exact Option.some_ne_none _, key⟩

end CMakeToolchainRs
